import Mathlib

/-!
Shallow embedding of the chat client in `src/main.rs` (qmuloadmin/qmuloai).

The program keeps a conversation context (a vector of role-tagged messages),
routes user input either to the LLM backend (plain prompts) or — via an
embedding model and a vector index — to a registered command, and runs a
top-level session loop.  External collaborators (the LLM backend over HTTP,
the embedding model, the Qdrant vector index) are modelled as explicit
function parameters; fallible Rust operations returning `Result` become
`Except`/`Option`, and operations that can panic (`unwrap`, `v[i]`) are
modelled with a distinct `fault` outcome.
-/

namespace Qmuloai

/-- `enum Role { User, System, Assistant }` from the source. -/
inductive Role where
  | user
  | system
  | assistant
deriving DecidableEq, Repr

/-- `struct Message { role: Role, content: String }` from the source. -/
structure Message where
  role : Role
  content : String
deriving DecidableEq, Repr

/-- `Message::user` constructor. -/
def Message.user (content : String) : Message := ⟨Role.user, content⟩

/-- `Message::system` constructor. -/
def Message.system (content : String) : Message := ⟨Role.system, content⟩

/-- `Message::assistant` constructor. -/
def Message.assistant (content : String) : Message := ⟨Role.assistant, content⟩

/-- `anyhow::Error` is modelled as its message string. -/
abbrev Err := String

/-- `struct ServerResponse { output: String, time: f32 }` from the source.
`time` is `f32` in the source; it is modelled as `Int` because no operation
of the program ever reads it. -/
structure ServerResponse where
  output : String
  time : Int
deriving DecidableEq, Repr

/-- `ChatContext::send_context`: POST the whole message list to the backend;
on a well-formed response push an assistant message with its `output`, on a
`?`-propagated failure (network error or unparsable JSON) return the error
with the context untouched.  The backend round trip is the explicit
parameter `backend`; the result is the new context paired with the error,
if any, that `send_context` returned. -/
def send_context (ctx : List Message)
    (backend : List Message → Except Err ServerResponse) :
    List Message × Option Err :=
  match backend ctx with
  | .error e => (ctx, some e)
  | .ok r => (ctx ++ [Message.assistant r.output], none)

/-- `ChatContext::send_user_message`: push a user message, then
`send_context`. -/
def send_user_message (ctx : List Message) (message : String)
    (backend : List Message → Except Err ServerResponse) :
    List Message × Option Err :=
  send_context (ctx ++ [Message.user message]) backend

/-- `enum InputType { Prompt(String), Command(String) }` from the source. -/
inductive InputType where
  | Prompt (text : String)
  | Command (text : String)
deriving DecidableEq, Repr

/-- `InputType::into_string` from the source. -/
def InputType.into_string : InputType → String
  | .Prompt prompt => prompt
  | .Command cmd => cmd

/-- The pure classification tail of `read_message` (lines 194-198 of the
source): `if line.starts_with('/') { Command(line[1..]) } else { Prompt(line) }`.
Since `'/'` is a single byte, the byte slice `line[1..]` is the string of
all characters after the first. -/
def read_message_classify (line : String) : InputType :=
  match line.data with
  | [] => InputType.Prompt line
  | c :: rest =>
    if c = '/' then InputType.Command (String.mk rest)
    else InputType.Prompt line

/-- `ChatContext::new`: the initial conversation context seeded with the
system prompt. -/
def ChatContext.new_context (sys_prompt : String) : List Message :=
  [⟨Role.system, sys_prompt⟩]

/-- `main` lines 245-247: the first captured input is classified by
`read_message`, then `into_string()` feeds `ChatContext::new`. -/
def main_initial_context (line : String) : List Message :=
  ChatContext.new_context (read_message_classify line).into_string

/-- `struct Command { id, description, f }` from the source.  The handler
`f` is `#[serde(skip)]`, so the serialized payload upserted into the vector
index is exactly this id/description record; handlers are modelled as
separate functions below. -/
structure Command where
  id : String
  description : String
deriving DecidableEq, Repr

/-- Lexicographic strict order on character lists, compared by code point.
`BTreeMap<String, _>` orders its keys by `Ord` on `String`, i.e.
lexicographically on bytes; on UTF-8 data byte order and code-point order
coincide. -/
def charListLtb : List Char → List Char → Bool
  | _, [] => false
  | [], _ :: _ => true
  | c :: cs, d :: ds =>
    if c.toNat < d.toNat then true
    else if d.toNat < c.toNat then false
    else charListLtb cs ds

/-- Strict lexicographic order on strings (see `charListLtb`). -/
def strLtb (a b : String) : Bool :=
  charListLtb a.data b.data

/-- `BTreeMap::insert` on the registry, modelled on a key-sorted
association list: insert in ascending key order, replacing the value when
the key is already present. -/
def btreeInsert (k : String) (v : Command) :
    List (String × Command) → List (String × Command)
  | [] => [(k, v)]
  | (k₁, v₁) :: rest =>
    if strLtb k k₁ then (k, v) :: (k₁, v₁) :: rest
    else if k = k₁ then (k, v) :: rest
    else (k₁, v₁) :: btreeInsert k v rest

/-- `BTreeMap::get` on the registry model. -/
def btreeGet (k : String) : List (String × Command) → Option Command
  | [] => none
  | (k₁, v₁) :: rest => if k = k₁ then some v₁ else btreeGet k rest

/-- The `retry` built-in registered by `initialize_commands`. -/
def retryCommand : Command :=
  ⟨"retry",
   "delete the last assistant response and regenerate it again, or retry the last response"⟩

/-- The `hint` built-in registered by `initialize_commands`. -/
def hintCommand : Command :=
  ⟨"hint",
   "add a message in the system role, further clarifying how the assistant should behave, or providing a suggestion for future responses."⟩

/-- The `system` built-in registered by `initialize_commands`. -/
def systemCommand : Command :=
  ⟨"system", "Overwrite the system prompt with a new one."⟩

/-- The registry after `initialize_commands` registers the three built-ins,
in the source's insertion order `retry`, `hint`, `system`. -/
def builtinRegistry : List (String × Command) :=
  btreeInsert "system" systemCommand
    (btreeInsert "hint" hintCommand
      (btreeInsert "retry" retryCommand []))

/-- Indexing-time framing `format!("{}: {}", command.id, command.description)`
from `initialize_commands`. -/
def descriptionText (c : Command) : String :=
  c.id ++ ": " ++ c.description

/-- The batch of texts passed to the single `embed` call of
`initialize_commands`: one description text per command, in registry
iteration order. -/
def initTexts (cmds : List (String × Command)) : List String :=
  cmds.map (fun kc => descriptionText kc.2)

/-- Query-time framing `format!("query: {}", command)` from `run_command`. -/
def queryText (t : String) : String :=
  "query: " ++ t

/-- A point upserted into the vector index: numeric id, embedding vector
(kept polymorphic — its numeric contents are opaque to the program), and
the command serialization as payload. -/
structure PointStruct (α : Type) where
  numId : Nat
  vector : α
  payload : Command
deriving DecidableEq, Repr

/-- The point-building loop of `initialize_commands` (lines 114-118):
`for (idx, embedding) in embeddings.enumerate { let (_, command) =
commands.iter().nth(idx).unwrap(); points.push(PointStruct::new(idx+1,
embedding, payload(command))) }`.  `none` models the `unwrap` panic when
`nth(idx)` runs past the registry. -/
def buildPoints {α : Type} (cmds : List (String × Command)) :
    List α → Nat → Option (List (PointStruct α))
  | [], _ => some []
  | e :: rest, idx =>
    match cmds[idx]?, buildPoints cmds rest (idx + 1) with
    | some kc, some ps => some (⟨idx + 1, e, kc.2⟩ :: ps)
    | _, _ => none

/-- A scored point returned by the index query, reduced to what
`run_command` reads from it: the payload's `"id"` field when present as a
string (`result[0].get("id")` followed by `.as_str()`). -/
structure ScoredPoint where
  idPayload : Option String
deriving DecidableEq, Repr

/-- Outcome of a routed command: normal success or error carry the
(possibly mutated) conversation context; `fault` models a panic
(`unwrap` on `None`, index out of bounds). -/
inductive RouteOutcome (σ : Type) where
  | ok (s : σ)
  | err (s : σ) (msg : String)
  | fault (msg : String)
deriving DecidableEq, Repr

/-- `ChatContext::run_command`: embed the query-framed text, pop the single
embedding (`unwrap` — fault when the provider returns no vector), query the
index (`?` — clean error), take `result[0]` (fault when the result list is
empty), read the payload's `"id"` as a string (`unwrap` — fault when absent),
look the id up in the registry (clean "Command not found" error, whose
message interpolates the raw command text), and finally execute the
handler.  `exec id` is the handler's effect on the context. -/
def run_command {α : Type} (registry : List (String × Command))
    (ctx : List Message) (command : String)
    (embedFn : List String → Except Err (List α))
    (queryFn : α → Except Err (List ScoredPoint))
    (exec : String → List Message → List Message × Option Err) :
    RouteOutcome (List Message) :=
  match embedFn [queryText command] with
  | .error e => .err ctx e
  | .ok embedding =>
    match embedding.getLast? with
    | none => .fault "called Option::unwrap on a None value"
    | some first =>
      match queryFn first with
      | .error e => .err ctx e
      | .ok result =>
        match result.get? 0 with
        | none => .fault "index out of bounds: the len is 0 but the index is 0"
        | some point =>
          match point.idPayload with
          | none => .fault "called Option::unwrap on a None value"
          | some id =>
            match btreeGet id registry with
            | none => .err ctx ("Command not found: " ++ command)
            | some _ =>
              match exec id ctx with
              | (ctx₁, none) => .ok ctx₁
              | (ctx₁, some e) => .err ctx₁ e

/-- The removal step of the `retry` handler: `ctx.context.pop()`.
`Vec::pop` removes the last element unconditionally (it is a no-op only on
an already-empty vector) and its return value is discarded. -/
def retry_remove_last (ctx : List Message) : List Message :=
  ctx.dropLast

/-- The whole `retry` handler: `ctx.context.pop(); ctx.send_context()`. -/
def retry_handler (ctx : List Message)
    (backend : List Message → Except Err ServerResponse) :
    List Message × Option Err :=
  send_context (retry_remove_last ctx) backend

/-- Result of one iteration of the session loop in `main`:
`next` — the loop continues with the new context; `exit` — an error was
propagated with `?` out of the loop, terminating the process with that
error; `fault` — a panic. -/
inductive StepResult where
  | next (ctx : List Message)
  | exit (e : Err)
  | fault (msg : String)
deriving DecidableEq, Repr

/-- One iteration of the `loop` in `main` (lines 250-263): a `Prompt` goes
through `send_user_message` with `?` (failure exits the loop and the
process); a `Command` goes through `run_command` with `if let Err(err) =
... { println!(...) }` (failure is printed and the loop continues with
whatever context the failed routing left behind). -/
def main_loop_step (ctx : List Message) (input : InputType)
    (backend : List Message → Except Err ServerResponse)
    (route : List Message → String → RouteOutcome (List Message)) :
    StepResult :=
  match input with
  | .Prompt prompt =>
    match send_user_message ctx prompt backend with
    | (ctx₁, none) => .next ctx₁
    | (_, some e) => .exit e
  | .Command cmd =>
    match route ctx cmd with
    | .ok ctx₁ => .next ctx₁
    | .err ctx₁ _ => .next ctx₁
    | .fault msg => .fault msg

/-- Reducing `read_message_classify` on a string in constructor form. -/
theorem read_message_classify_mk (c : Char) (cs : List Char) :
    read_message_classify (String.mk (c :: cs)) =
      if c = '/' then InputType.Command (String.mk cs)
      else InputType.Prompt (String.mk (c :: cs)) := by
  by_cases h : c = '/' <;> simp [read_message_classify, h]

/-- The point-building loop of `initialize_commands` succeeds whenever the
embedding batch is no longer than the registry, and point `j` carries
numeric id `idx + j + 1`, the `j`-th embedding, and the payload of the
command at registry position `idx + j`. -/
theorem buildPoints_spec {α : Type} (cmds : List (String × Command)) :
    ∀ (embs : List α) (idx : Nat), idx + embs.length ≤ cmds.length →
    ∃ ps : List (PointStruct α), buildPoints cmds embs idx = some ps ∧
      ps.length = embs.length ∧
      ∀ j e kc, embs[j]? = some e → cmds[idx + j]? = some kc →
        ps[j]? = some ⟨idx + j + 1, e, kc.2⟩ := by
  intro embs
  induction embs with
  | nil =>
    intro idx _
    exact ⟨[], rfl, rfl, fun j e kc hj _ => by simp at hj⟩
  | cons e₀ rest ih =>
    intro idx h
    have hidx : idx < cmds.length := by
      simp [List.length_cons] at h; omega
    have hkc₀ : cmds[idx]? = some cmds[idx] :=
      List.getElem?_eq_getElem hidx
    obtain ⟨ps₁, hps₁, hlen₁, hget₁⟩ := ih (idx + 1) (by
      simp [List.length_cons] at h; omega)
    refine ⟨⟨idx + 1, e₀, (cmds[idx]).2⟩ :: ps₁, ?_, ?_, ?_⟩
    · simp [buildPoints, hkc₀, hps₁]
    · simp [hlen₁]
    · intro j e kc hj hkc
      cases j with
      | zero =>
        have he : e₀ = e := by simpa using hj
        have hkck : cmds[idx]? = some kc := by simpa using hkc
        rw [hkc₀] at hkck
        have hk : cmds[idx] = kc := by simpa using hkck
        simp [he, hk]
      | succ j =>
        have harith : idx + 1 + j = idx + (j + 1) := by omega
        have := hget₁ j e kc (by simpa using hj) (by rw [harith]; exact hkc)
        rw [harith] at this
        simpa using this

/-- Claim C1 (counterexample): in the `Ready` loop, a backend failure on a
plain prompt is NOT caught — `ctx.send_user_message(prompt)?` propagates it
out of the loop, terminating the process with that error, contrary to the
claim that every per-turn routing/sending error is printed and the loop
continues. -/
theorem prompt_send_error_exits_loop :
    main_loop_step [Message.system "s"] (InputType.Prompt "hi")
      (fun _ => Except.error "connection refused") (fun c _ => RouteOutcome.ok c)
      = StepResult.exit "connection refused" := by decide

/-- Claim C1 (amended): in the `Ready` loop, errors from routing a command
are caught and the loop continues with the context the failed routing left
behind; but an error from sending a prompt (`NetworkError`) propagates out
of the loop and terminates the process — it is fatal, like a startup
error. -/
theorem main_loop_step_error_policy
    (ctx : List Message)
    (backend : List Message → Except Err ServerResponse)
    (route : List Message → String → RouteOutcome (List Message)) :
    (∀ cmd ctx₁ msg, route ctx cmd = RouteOutcome.err ctx₁ msg →
      main_loop_step ctx (InputType.Command cmd) backend route
        = StepResult.next ctx₁) ∧
    (∀ prompt e, backend (ctx ++ [Message.user prompt]) = Except.error e →
      main_loop_step ctx (InputType.Prompt prompt) backend route
        = StepResult.exit e) := by
  constructor
  · intro cmd ctx₁ msg h
    simp [main_loop_step, h]
  · intro prompt e h
    simp [main_loop_step, send_user_message, send_context, h]

/-- Witness for `main_loop_step_error_policy` at a concrete state, routing
outcome and backend. -/
theorem main_loop_step_error_policy_witness :
    ((fun (c : List Message) (_ : String) => RouteOutcome.err c "no match")
        [Message.system "s"] "zap" = RouteOutcome.err [Message.system "s"] "no match") ∧
    main_loop_step [Message.system "s"] (InputType.Command "zap")
      (fun _ => Except.error "x")
      (fun c _ => RouteOutcome.err c "no match")
      = StepResult.next [Message.system "s"] :=
  ⟨rfl,
   (main_loop_step_error_policy [Message.system "s"]
      (fun _ => Except.error "x")
      (fun c _ => RouteOutcome.err c "no match")).1
     "zap" [Message.system "s"] "no match" rfl⟩

/-- Claim C2 (code-bug evaluation): the removal step of the `retry`
handler is an unconditional `Vec::pop`.  On a context holding exactly the
system-prompt message it removes the System message (no error, a real
mutation), leaving the context empty; the handler then resends, so on a
successful backend response the resulting context is a lone Assistant
message — element 0 no longer has role System. -/
theorem retry_pop_removes_lone_system_message :
    retry_remove_last [Message.system "You are a helpful assistant."] = [] ∧
    retry_handler [Message.system "You are a helpful assistant."]
        (fun _ => Except.error "refused") = ([], some "refused") ∧
    retry_handler [Message.system "You are a helpful assistant."]
        (fun _ => Except.ok ⟨"hello", 0⟩)
      = ([Message.assistant "hello"], none) := by decide

/-- Claim C3: `send_context` is atomic — when the backend round trip fails
(network error or unparsable response), the error is returned and the
context is exactly the one before the call; an Assistant message carrying
the response output is appended exactly on the success path. -/
theorem send_context_atomicity
    (ctx : List Message)
    (backend : List Message → Except Err ServerResponse) :
    (∀ e, backend ctx = Except.error e →
      send_context ctx backend = (ctx, some e)) ∧
    (∀ r, backend ctx = Except.ok r →
      send_context ctx backend = (ctx ++ [Message.assistant r.output], none)) := by
  constructor
  · intro e h
    simp [send_context, h]
  · intro r h
    simp [send_context, h]

/-- Witness for `send_context_atomicity` at a concrete context and failing
backend. -/
theorem send_context_atomicity_witness :
    ((fun _ : List Message =>
        (Except.error "connection refused" : Except Err ServerResponse))
      [Message.system "s"] = Except.error "connection refused") ∧
    send_context [Message.system "s"] (fun _ => Except.error "connection refused")
      = ([Message.system "s"], some "connection refused") :=
  ⟨rfl,
   (send_context_atomicity [Message.system "s"]
      (fun _ => Except.error "connection refused")).1 "connection refused" rfl⟩

/-- Claim C4 (counterexample): routing with an empty registry does not
fail cleanly — with the index holding nothing to return, `result[0]` is an
unchecked index and `run_command` faults (panics) instead of returning a
`RouterError`. -/
theorem run_command_empty_registry_faults :
    run_command ([] : List (String × Command)) [Message.system "s"] "do it"
      (fun _ => Except.ok [[1]])
      (fun (_ : List Int) => Except.ok [])
      (fun _ c => (c, none))
      = RouteOutcome.fault "index out of bounds: the len is 0 but the index is 0" := by
  decide

/-- Claim C4 (amended): routing when the registry is empty performs no
empty-registry check; whenever the query embedding succeeds and the index
query returns no points, `run_command` faults at the unchecked `result[0]`
rather than failing cleanly with a router error.  (In the shipped program
the fault is unreachable only because `initialize_commands` always
registers the three built-ins before the loop starts.) -/
theorem run_command_empty_query_result_faults {α : Type}
    (ctx : List Message) (command : String)
    (embedFn : List String → Except Err (List α))
    (queryFn : α → Except Err (List ScoredPoint))
    (exec : String → List Message → List Message × Option Err)
    (embedding : List α) (v : α)
    (hembed : embedFn [queryText command] = Except.ok embedding)
    (hlast : embedding.getLast? = some v)
    (hquery : queryFn v = Except.ok []) :
    run_command ([] : List (String × Command)) ctx command embedFn queryFn exec
      = RouteOutcome.fault "index out of bounds: the len is 0 but the index is 0" := by
  simp [run_command, hembed, hlast, hquery]

/-- Witness for `run_command_empty_query_result_faults` at concrete
collaborators. -/
theorem run_command_empty_query_result_faults_witness :
    ((fun _ : List String => (Except.ok [7] : Except Err (List Nat)))
        [queryText "zap"] = Except.ok [7] ∧
      ([7] : List Nat).getLast? = some 7 ∧
      (fun _ : Nat => (Except.ok [] : Except Err (List ScoredPoint))) 7
        = Except.ok []) ∧
    run_command ([] : List (String × Command)) [Message.system "s"] "zap"
      (fun _ => Except.ok [7])
      (fun (_ : Nat) => Except.ok [])
      (fun _ c => (c, none))
      = RouteOutcome.fault "index out of bounds: the len is 0 but the index is 0" :=
  ⟨⟨rfl, rfl, rfl⟩,
   run_command_empty_query_result_faults [Message.system "s"] "zap"
     (fun _ => Except.ok [7]) (fun _ => Except.ok []) (fun _ c => (c, none))
     [7] 7 rfl rfl rfl⟩

/-- Claim C5 (counterexample): when the very first captured input begins
with the command sentinel, its raw text is NOT used verbatim as the system
prompt — `read_message` strips the leading `/` before `into_string()` seeds
the context, so `"/hint"` seeds the system prompt `"hint"`. -/
theorem first_input_sentinel_stripped :
    main_initial_context "/hint" = [Message.system "hint"] ∧
    [Message.system "hint"] ≠ [Message.system "/hint"] := by decide

/-- Claim C5 (amended): the very first captured input is never routed as a
command — it always seeds a single System message; when it does not begin
with the sentinel the seed is the raw text, and when it begins with `/`
the seed is the raw text with the leading sentinel stripped. -/
theorem main_initial_context_spec :
    (∀ line : String, (main_initial_context line).map Message.role = [Role.system]) ∧
    (∀ (c : Char) (cs : List Char),
      main_initial_context (String.mk (c :: cs)) =
        [Message.system (if c = '/' then String.mk cs else String.mk (c :: cs))]) ∧
    main_initial_context "" = [Message.system ""] := by
  refine ⟨?_, ?_, by decide⟩
  · intro line
    cases line with
    | mk data =>
      cases data with
      | nil =>
        simp [main_initial_context, ChatContext.new_context,
          read_message_classify, InputType.into_string]
      | cons c cs =>
        by_cases h : c = '/' <;>
          simp [main_initial_context, ChatContext.new_context,
            read_message_classify_mk, h, InputType.into_string, Message.system]
  · intro c cs
    by_cases h : c = '/' <;>
      simp [main_initial_context, ChatContext.new_context,
        read_message_classify_mk, h, InputType.into_string, Message.system]

/-- Claim C6: one description text per command, in registry iteration
order; the batch is embedded in one call, and the `i`-th embedding becomes
the point with numeric id `i + 1` whose payload is the `i`-th command of
the same iteration order. -/
theorem initialize_commands_alignment {α : Type}
    (cmds : List (String × Command)) (embs : List α)
    (hlen : embs.length = cmds.length) :
    ∃ ps : List (PointStruct α), buildPoints cmds embs 0 = some ps ∧
      ps.length = cmds.length ∧
      ∀ (i : Nat) (e : α) (kc : String × Command),
        embs[i]? = some e → cmds[i]? = some kc →
        (initTexts cmds)[i]? = some (descriptionText kc.2) ∧
        ps[i]? = some ⟨i + 1, e, kc.2⟩ := by
  obtain ⟨ps, hps, hlen₁, hget⟩ := buildPoints_spec cmds embs 0 (by omega)
  refine ⟨ps, hps, by rw [hlen₁, hlen], ?_⟩
  intro i e kc he hkc
  constructor
  · simp [initTexts, List.getElem?_map, hkc]
  · have := hget i e kc he (by rw [Nat.zero_add]; exact hkc)
    simpa using this

/-- Witness for `initialize_commands_alignment` at the built-in registry
and a concrete three-vector batch. -/
theorem initialize_commands_alignment_witness :
    (([10, 20, 30] : List Nat).length = builtinRegistry.length) ∧
    (∃ ps : List (PointStruct Nat),
      buildPoints builtinRegistry [10, 20, 30] 0 = some ps ∧
      ps.length = builtinRegistry.length ∧
      ∀ (i : Nat) (e : Nat) (kc : String × Command),
        ([10, 20, 30] : List Nat)[i]? = some e →
        builtinRegistry[i]? = some kc →
        (initTexts builtinRegistry)[i]? = some (descriptionText kc.2) ∧
        ps[i]? = some ⟨i + 1, e, kc.2⟩) :=
  ⟨by decide, initialize_commands_alignment builtinRegistry [10, 20, 30] (by decide)⟩

/-- Claim C7: the router embeds the raw command text under the query
framing `"query: " ++ t`, while indexing-time texts use the
`"{id}: {description}"` framing, and none of the built-in registry's
indexing texts carries the query marker. -/
theorem query_framing_asymmetry :
    (∀ t : String, queryText t = "query: " ++ t) ∧
    (∀ c : Command, descriptionText c = c.id ++ ": " ++ c.description) ∧
    (initTexts builtinRegistry).all
      (fun s => !(("query: ".data).isPrefixOf s.data)) = true :=
  ⟨fun _ => rfl, fun _ => rfl, by decide⟩

/-- Claim C8: the input classifier is a pure function of the captured
line — a line beginning with `/` classifies as `Command` with exactly the
sentinel stripped, any other line (the empty line included) classifies as
`Prompt` unchanged. -/
theorem read_message_classify_spec :
    (∀ (c : Char) (cs : List Char),
      read_message_classify (String.mk (c :: cs)) =
        if c = '/' then InputType.Command (String.mk cs)
        else InputType.Prompt (String.mk (c :: cs))) ∧
    read_message_classify "/hint" = InputType.Command "hint" ∧
    read_message_classify "hello world" = InputType.Prompt "hello world" ∧
    read_message_classify "" = InputType.Prompt "" :=
  ⟨read_message_classify_mk, by decide, by decide, by decide⟩

/-- Claim C9: `send_user_message` appends the User message before the
backend round trip; on a backend failure the error is surfaced but the
User message stays appended — the new context is exactly the old one plus
that User message, and in particular differs from the old one, so the
prompt turn as a whole is not atomic even though `send_context` is. -/
theorem send_user_message_appends_before_backend
    (ctx : List Message) (message : String)
    (backend : List Message → Except Err ServerResponse) (e : Err)
    (h : backend (ctx ++ [Message.user message]) = Except.error e) :
    send_user_message ctx message backend = (ctx ++ [Message.user message], some e) ∧
    ctx ++ [Message.user message] ≠ ctx := by
  constructor
  · simp [send_user_message, send_context, h]
  · intro hc
    have := congrArg List.length hc
    simp at this

/-- Witness for `send_user_message_appends_before_backend` at a concrete
context and failing backend. -/
theorem send_user_message_appends_before_backend_witness :
    ((fun _ : List Message => (Except.error "boom" : Except Err ServerResponse))
        ([Message.system "s"] ++ [Message.user "hi"]) = Except.error "boom") ∧
    (send_user_message [Message.system "s"] "hi" (fun _ => Except.error "boom")
        = ([Message.system "s"] ++ [Message.user "hi"], some "boom") ∧
      [Message.system "s"] ++ [Message.user "hi"] ≠ [Message.system "s"]) :=
  ⟨rfl,
   send_user_message_appends_before_backend [Message.system "s"] "hi"
     (fun _ => Except.error "boom") "boom" rfl⟩

/-- Claim C10: the registry is a key-ordered map, so iteration order is
the ascending lexicographic order of the command ids; both iteration
passes of `initialize_commands` traverse the same ordered sequence, and
for the built-ins the numeric-id assignment is `hint → 1`, `retry → 2`,
`system → 3`, each point carrying the payload of the command whose text
produced the embedding at the same position. -/
theorem registry_iteration_order :
    builtinRegistry.map Prod.fst = ["hint", "retry", "system"] ∧
    List.Chain' (fun a b => strLtb a b = true) (builtinRegistry.map Prod.fst) ∧
    initTexts builtinRegistry =
      [descriptionText hintCommand, descriptionText retryCommand,
        descriptionText systemCommand] ∧
    buildPoints builtinRegistry [10, 20, 30] 0 =
      some [⟨1, 10, hintCommand⟩, ⟨2, 20, retryCommand⟩, ⟨3, 30, systemCommand⟩] ∧
    btreeGet "hint" builtinRegistry = some hintCommand ∧
    btreeGet "retry" builtinRegistry = some retryCommand ∧
    btreeGet "system" builtinRegistry = some systemCommand := by
  refine ⟨by decide, ?_, by decide, by decide, by decide, by decide, by decide⟩
  have hmap : builtinRegistry.map Prod.fst = ["hint", "retry", "system"] := by decide
  rw [hmap]
  refine List.chain'_cons.mpr ⟨by decide, List.chain'_cons.mpr ⟨by decide, ?_⟩⟩
  exact List.chain'_singleton "system"

end Qmuloai
